import Mathlib

/-! # RenderCore resource descriptors

A shallow embedding of `RenderCore/ResourceDesc.h`: the flag enumerations, the
linear-buffer and texture descriptors, their factory functions and the two
`CreateDesc` builders, followed by the properties proved about them.

Conventions of the embedding.
* `unsigned`, `uint8`, `uint16` and `uint32` values are natural numbers. The
  functions below only store and forward them (no arithmetic is performed on
  them), so no wrap-around can occur inside these functions.
* A `char` is a natural number (its code); the terminator is `0`.
* The anonymous union of `ResourceDesc` is the sum type `ResourceDesc.Payload`:
  the member written last is the active one, and reading the other member
  yields nothing.
* `char _name[48]` is a function on `Fin 48`.
-/

namespace RenderCore

/-- The type `Format` is only forward declared in the header (`enum class Format;`);
    a value is represented by its underlying integer. -/
structure Format where
  value : Int
  deriving DecidableEq, Repr

namespace CPUAccess

/-- Enumeration `CPUAccess::Enum`. -/
inductive Enum where
  | Read
  | Write
  | WriteDynamic
  deriving DecidableEq, Repr

abbrev BitField := Nat

/-- Numeric value of an enumerator of `CPUAccess::Enum`. -/
def Enum.value : Enum → BitField
  | .Read => 1 <<< 0
  | .Write => 1 <<< 1
  | .WriteDynamic => (1 <<< 2) ||| (1 <<< 1)

end CPUAccess

namespace GPUAccess

/-- Enumeration `GPUAccess::Enum`. -/
inductive Enum where
  | Read
  | Write
  deriving DecidableEq, Repr

abbrev BitField := Nat

/-- Numeric value of an enumerator of `GPUAccess::Enum`. -/
def Enum.value : Enum → BitField
  | .Read => 1 <<< 0
  | .Write => 1 <<< 1

end GPUAccess

namespace BindFlag

/-- Enumeration `BindFlag::Enum`. -/
inductive Enum where
  | VertexBuffer
  | IndexBuffer
  | ShaderResource
  | RenderTarget
  | DepthStencil
  | UnorderedAccess
  | StructuredBuffer
  | ConstantBuffer
  | StreamOutput
  | DrawIndirectArgs
  | RawViews
  deriving DecidableEq, Repr

abbrev BitField := Nat

/-- Numeric value of an enumerator of `BindFlag::Enum`. -/
def Enum.value : Enum → BitField
  | .VertexBuffer => 1 <<< 0
  | .IndexBuffer => 1 <<< 1
  | .ShaderResource => 1 <<< 2
  | .RenderTarget => 1 <<< 3
  | .DepthStencil => 1 <<< 4
  | .UnorderedAccess => 1 <<< 5
  | .StructuredBuffer => 1 <<< 6
  | .ConstantBuffer => 1 <<< 7
  | .StreamOutput => 1 <<< 8
  | .DrawIndirectArgs => 1 <<< 9
  | .RawViews => 1 <<< 10

end BindFlag

namespace AllocationRules

/-- Enumeration `AllocationRules::Enum`. -/
inductive Enum where
  | Pooled
  | Batched
  | Staging
  | NonVolatile
  deriving DecidableEq, Repr

abbrev BitField := Nat

/-- Numeric value of an enumerator of `AllocationRules::Enum`. -/
def Enum.value : Enum → BitField
  | .Pooled => 1 <<< 0
  | .Batched => 1 <<< 1
  | .Staging => 1 <<< 2
  | .NonVolatile => 1 <<< 3

end AllocationRules

/-- Class `LinearBufferDesc`. -/
structure LinearBufferDesc where
  _sizeInBytes : Nat
  _structureByteSize : Nat
  deriving DecidableEq, Repr

/-- Class `TextureSamples`. -/
structure TextureSamples where
  _sampleCount : Nat
  _samplingQuality : Nat
  deriving DecidableEq, Repr

/-- The function `TextureSamples::Create(sampleCount = 1, samplingQuality = 0)`. -/
def TextureSamples.Create (sampleCount : Nat := 1) (samplingQuality : Nat := 0) :
    TextureSamples :=
  { _sampleCount := sampleCount, _samplingQuality := samplingQuality }

namespace TextureDesc

/-- Enumeration `TextureDesc::Dimensionality::Enum`. -/
inductive Dimensionality where
  | T1D
  | T2D
  | T3D
  | CubeMap
  deriving DecidableEq, Repr

end TextureDesc

/-- Class `TextureDesc`. -/
structure TextureDesc where
  _width : Nat
  _height : Nat
  _depth : Nat
  _format : Format
  _dimensionality : TextureDesc.Dimensionality
  _mipCount : Nat
  _arrayCount : Nat
  _samples : TextureSamples
  deriving DecidableEq, Repr

/-- A C character, by its code. -/
abbrev CChar := Nat

namespace ResourceDesc

/-- Enumeration `ResourceDesc::Type::Enum`. -/
inductive TypeEnum where
  | LinearBuffer
  | Texture
  | Unknown
  | Max
  deriving DecidableEq, Repr

/-- The anonymous union `{ LinearBufferDesc _linearBufferDesc; TextureDesc _textureDesc; }`,
    tagged by the member that was written last. -/
inductive Payload where
  | linearBuffer (desc : LinearBufferDesc)
  | texture (desc : TextureDesc)
  deriving DecidableEq, Repr

end ResourceDesc

/-- Class `ResourceDesc`. -/
structure ResourceDesc where
  _type : ResourceDesc.TypeEnum
  _bindFlags : BindFlag.BitField
  _cpuAccess : CPUAccess.BitField
  _gpuAccess : GPUAccess.BitField
  _allocationRules : AllocationRules.BitField
  payload : ResourceDesc.Payload
  _name : Fin 48 → CChar

/-- Reading the union member `_linearBufferDesc`. -/
def ResourceDesc._linearBufferDesc (d : ResourceDesc) : Option LinearBufferDesc :=
  match d.payload with
  | .linearBuffer b => some b
  | .texture _ => none

/-- Reading the union member `_textureDesc`. -/
def ResourceDesc._textureDesc (d : ResourceDesc) : Option TextureDesc :=
  match d.payload with
  | .texture t => some t
  | .linearBuffer _ => none

/-- The characters of a C string: those before its first terminator. The list
    stands for the memory the `const char*` points to; the end of the list acts
    as a terminator. -/
def cstr (s : List CChar) : List CChar :=
  s.takeWhile (fun c => c != 0)

/-- The C string held in a character array: its characters up to the first
    terminator. -/
def bufferString {n : Nat} (buf : Fin n → CChar) : List CChar :=
  cstr (List.ofFn buf)

/-- The character codes of a string literal. -/
def chars (s : String) : List CChar :=
  s.toList.map Char.toNat

/-- Modelled from the spec: the macro `dimof` (Core/Prefix.h, not among the
    sources) gives the number of elements of a fixed-size array; for
    `char _name[48]` that is the capacity of 47 characters plus a terminator. -/
def dimof {α : Type} {n : Nat} (_arr : Fin n → α) : Nat :=
  n

/-- Modelled from the spec: `XlCopyString(dst, size, src)` (Utility/StringUtils.h,
    not among the sources) is a bounded copy that always null-terminates and
    truncates rather than overflows. It copies the characters of `src` up to at
    most `size - 1` of them into `dst`, writes a terminator right after them, and
    leaves the rest of `dst` as it was. -/
def XlCopyString {n : Nat} (dst : Fin n → CChar) (size : Nat) (src : List CChar) :
    Fin n → CChar :=
  let s := cstr src
  let count := min s.length (size - 1)
  fun i =>
    if size = 0 then dst i
    else if i.val < count then s.getD i.val 0
    else if i.val = count then 0
    else dst i

/-- The function `CreateDesc`, texture overload. The first parameter `desc` is the value
    left by `ResourceDesc desc;`, whose default constructor is not among the
    sources. -/
def CreateDesc (desc : ResourceDesc) (bindFlags : BindFlag.BitField)
    (cpuAccess : CPUAccess.BitField) (gpuAccess : GPUAccess.BitField)
    (textureDesc : TextureDesc) (name : List CChar) : ResourceDesc :=
  let desc := { desc with _type := ResourceDesc.TypeEnum.Texture }
  let desc := { desc with _bindFlags := bindFlags }
  let desc := { desc with _cpuAccess := cpuAccess }
  let desc := { desc with _gpuAccess := gpuAccess }
  let desc := { desc with _allocationRules := 0 }
  let desc := { desc with payload := ResourceDesc.Payload.texture textureDesc }
  let desc := { desc with _name := XlCopyString desc._name (dimof desc._name) name }
  desc

/-- The function `CreateDesc`, linear-buffer overload. The first parameter `desc` is the
    value left by `ResourceDesc desc;`, whose default constructor is not among
    the sources. -/
def CreateDescLinearBuffer (desc : ResourceDesc) (bindFlags : BindFlag.BitField)
    (cpuAccess : CPUAccess.BitField) (gpuAccess : GPUAccess.BitField)
    (linearBufferDesc : LinearBufferDesc) (name : List CChar) : ResourceDesc :=
  let desc := { desc with _type := ResourceDesc.TypeEnum.LinearBuffer }
  let desc := { desc with _bindFlags := bindFlags }
  let desc := { desc with _cpuAccess := cpuAccess }
  let desc := { desc with _gpuAccess := gpuAccess }
  let desc := { desc with _allocationRules := 0 }
  let desc := { desc with payload := ResourceDesc.Payload.linearBuffer linearBufferDesc }
  let desc := { desc with _name := XlCopyString desc._name (dimof desc._name) name }
  desc

/-- The function `TextureDesc::Plain1D(width, format, mipCount = 1, arrayCount = 0)`. -/
def TextureDesc.Plain1D (width : Nat) (format : Format) (mipCount : Nat := 1)
    (arrayCount : Nat := 0) : TextureDesc :=
  { _width := width
    _height := 1
    _depth := 1
    _format := format
    _dimensionality := TextureDesc.Dimensionality.T1D
    _mipCount := mipCount
    _arrayCount := arrayCount
    _samples := TextureSamples.Create }

/-- The function `TextureDesc::Plain2D(width, height, format, mipCount = 1, arrayCount = 0,
    samples = TextureSamples::Create())`. -/
def TextureDesc.Plain2D (width height : Nat) (format : Format) (mipCount : Nat := 1)
    (arrayCount : Nat := 0) (samples : TextureSamples := TextureSamples.Create) :
    TextureDesc :=
  { _width := width
    _height := height
    _depth := 1
    _format := format
    _dimensionality := TextureDesc.Dimensionality.T2D
    _mipCount := mipCount
    _arrayCount := arrayCount
    _samples := samples }

/-- The function `TextureDesc::Plain3D(width, height, depth, format, mipCount = 1)`. -/
def TextureDesc.Plain3D (width height depth : Nat) (format : Format)
    (mipCount : Nat := 1) : TextureDesc :=
  { _width := width
    _height := height
    _depth := depth
    _format := format
    _dimensionality := TextureDesc.Dimensionality.T3D
    _mipCount := mipCount
    _arrayCount := 0
    _samples := TextureSamples.Create }

/-- The function `TextureDesc::Empty()`. -/
def TextureDesc.Empty : TextureDesc :=
  { _width := 0
    _height := 0
    _depth := 0
    _format := ⟨0⟩
    _dimensionality := TextureDesc.Dimensionality.T1D
    _mipCount := 0
    _arrayCount := 0
    _samples := TextureSamples.Create }

/-- The function `LinearBufferDesc::Create(sizeInBytes, structureByteSize = 0)`. -/
def LinearBufferDesc.Create (sizeInBytes : Nat) (structureByteSize : Nat := 0) :
    LinearBufferDesc :=
  { _sizeInBytes := sizeInBytes, _structureByteSize := structureByteSize }

/-- A sample value for what `ResourceDesc desc;` leaves behind, used in the
    concrete examples: unknown type, no flags, and a name array filled with the
    non-zero byte `0xCD`. -/
def sampleDesc : ResourceDesc :=
  { _type := ResourceDesc.TypeEnum.Unknown
    _bindFlags := 0
    _cpuAccess := 0
    _gpuAccess := 0
    _allocationRules := 0
    payload := ResourceDesc.Payload.linearBuffer { _sizeInBytes := 0, _structureByteSize := 0 }
    _name := fun _ => 205 }

/-- A name of 58 characters, longer than the name array. -/
def longName : List CChar :=
  chars "EnvironmentScene/ShadowFrustum/CascadeDepthBuffer-Main[00]"

/-- The bitwise-or of a list of flag values: `f1 | f2 | ... | fn`, and `0` for no
    flag. -/
def orAll (flags : List Nat) : Nat :=
  flags.foldr (fun f acc => f ||| acc) 0

end RenderCore

/-! # Terrain height sampling

A shallow embedding of `xleres/Objects/Terrain/HeightsSample.h`: the twelve
neighbour-tap functions `T0` .. `T11` and `EvaluateCubicCurve`.

* An HLSL `int` is an integer in `[-2^31, 2^31)`; `+` and `-` wrap around modulo
  `2^32` (`wrapInt32`).
* `HeightMapOrigin` and `TileDimensionsInVertices` are shader constants declared
  outside this file; they are the fields of `TileConstants`, passed to every
  function that reads them, and hold `int` values.
* `EvaluateCubicCurve` is written over the rationals: the `float` operations are
  read as exact arithmetic, `.5f` is `1/2`.
-/

namespace HeightsSample

/-- The value of a 32-bit two's complement `int` after an arithmetic result `z`
    is stored in it. -/
def wrapInt32 (z : Int) : Int :=
  (z + 2147483648) % 4294967296 - 2147483648

/-- HLSL vector type `int2`. -/
structure int2 where
  x : Int
  y : Int
  deriving DecidableEq, Repr

/-- HLSL vector type `int3`. -/
structure int3 where
  x : Int
  y : Int
  z : Int
  deriving DecidableEq, Repr

/-- The shader constants `HeightMapOrigin` and `TileDimensionsInVertices`, which
    `HeightsSample.h` reads and does not declare. -/
structure TileConstants where
  HeightMapOrigin : int3
  TileDimensionsInVertices : Int
  deriving DecidableEq, Repr

/-- Shader function `T0`. -/
def T0 (c : TileConstants) (input : int2) : int2 :=
  { x := max (wrapInt32 (input.x - 1)) c.HeightMapOrigin.x
    y := max (wrapInt32 (input.y - 1)) c.HeightMapOrigin.y }

/-- Shader function `T1`. -/
def T1 (c : TileConstants) (input : int2) : int2 :=
  { x := wrapInt32 (input.x + 0)
    y := max (wrapInt32 (input.y - 1)) c.HeightMapOrigin.y }

/-- Shader function `T2`. -/
def T2 (c : TileConstants) (input : int2) : int2 :=
  { x := wrapInt32 (input.x + 1)
    y := max (wrapInt32 (input.y - 1)) c.HeightMapOrigin.y }

/-- Shader function `T3`. -/
def T3 (c : TileConstants) (input : int2) : int2 :=
  { x := min (wrapInt32 (input.x + 2))
      (wrapInt32 (wrapInt32 (c.HeightMapOrigin.x + c.TileDimensionsInVertices) - 1))
    y := max (wrapInt32 (input.y - 1)) c.HeightMapOrigin.y }

/-- Shader function `T4`. -/
def T4 (c : TileConstants) (input : int2) : int2 :=
  { x := max (wrapInt32 (input.x - 1)) c.HeightMapOrigin.x
    y := input.y }

/-- Shader function `T5`. -/
def T5 (c : TileConstants) (input : int2) : int2 :=
  { x := min (wrapInt32 (input.x + 2))
      (wrapInt32 (wrapInt32 (c.HeightMapOrigin.x + c.TileDimensionsInVertices) - 1))
    y := input.y }

/-- Shader function `T6`. -/
def T6 (c : TileConstants) (input : int2) : int2 :=
  { x := max (wrapInt32 (input.x - 1)) c.HeightMapOrigin.x
    y := wrapInt32 (input.y + 1) }

/-- Shader function `T7`. -/
def T7 (c : TileConstants) (input : int2) : int2 :=
  { x := min (wrapInt32 (input.x + 2))
      (wrapInt32 (wrapInt32 (c.HeightMapOrigin.x + c.TileDimensionsInVertices) - 1))
    y := wrapInt32 (input.y + 1) }

/-- Shader function `T8`. -/
def T8 (c : TileConstants) (input : int2) : int2 :=
  { x := max (wrapInt32 (input.x - 1)) c.HeightMapOrigin.x
    y := min (wrapInt32 (input.y + 2))
      (wrapInt32 (wrapInt32 (c.HeightMapOrigin.y + c.TileDimensionsInVertices) - 1)) }

/-- Shader function `T9`. -/
def T9 (c : TileConstants) (input : int2) : int2 :=
  { x := wrapInt32 (input.x + 0)
    y := min (wrapInt32 (input.y + 2))
      (wrapInt32 (wrapInt32 (c.HeightMapOrigin.y + c.TileDimensionsInVertices) - 1)) }

/-- Shader function `T10`. -/
def T10 (c : TileConstants) (input : int2) : int2 :=
  { x := wrapInt32 (input.x + 1)
    y := min (wrapInt32 (input.y + 2))
      (wrapInt32 (wrapInt32 (c.HeightMapOrigin.y + c.TileDimensionsInVertices) - 1)) }

/-- Shader function `T11`. -/
def T11 (c : TileConstants) (input : int2) : int2 :=
  { x := min (wrapInt32 (input.x + 2))
      (wrapInt32 (wrapInt32 (c.HeightMapOrigin.x + c.TileDimensionsInVertices) - 1))
    y := min (wrapInt32 (input.y + 2))
      (wrapInt32 (wrapInt32 (c.HeightMapOrigin.y + c.TileDimensionsInVertices) - 1)) }

/-- Shader function `EvaluateCubicCurve`, over exact arithmetic. -/
def EvaluateCubicCurve (pm0 p0 p1 p2 t : ℚ) : ℚ :=
  let t2 := t * t
  let t3 := t2 * t
  let m0 := (1 / 2) * (p1 - pm0)
  let m1 := (1 / 2) * (p2 - p0)
  p0 * (1 - 3 * t2 + 2 * t3)
    + p1 * (3 * t2 - 2 * t3)
    + m0 * (t - 2 * t2 + t3)
    + m1 * (-t2 + t3)

end HeightsSample

/-! # Sample environment scene

A shallow embedding of `EnvironmentSceneParser::GetShadowFrustumCount` and
`EnvironmentSceneParser::GetShadowFrustumDesc` from
`Samples/Environment/EnvironmentScene.cpp`.

* A C++ exception is an `Except.error`; the function also returns the contents
  of its function-local `static ShadowFrustumDesc result[1]` after the call.
* The descriptor types and `PlatformRig::CalculateDefaultShadowFrustums` are
  declared outside this file, and `GetLightDesc` and `GetCameraDesc` return
  floating-point records; they are the type parameters and the fields of
  `SceneQueries`.
-/

namespace Sample

namespace Exceptions

/-- Exception class `Exceptions::BasicLabel`, by the label it carries. -/
structure BasicLabel where
  label : String
  deriving DecidableEq, Repr

end Exceptions

/-- What `GetShadowFrustumDesc` calls: `PlatformRig::CalculateDefaultShadowFrustums`
    and the member functions `GetLightDesc` and `GetCameraDesc`. -/
structure SceneQueries (ShadowFrustumDesc LightDesc CameraDesc : Type) where
  CalculateDefaultShadowFrustums : LightDesc → CameraDesc → ShadowFrustumDesc
  GetLightDesc : Nat → LightDesc
  GetCameraDesc : CameraDesc

namespace EnvironmentSceneParser

/-- Member function `EnvironmentSceneParser::GetShadowFrustumCount`. -/
def GetShadowFrustumCount : Nat :=
  1

/-- Member function `EnvironmentSceneParser::GetShadowFrustumDesc`. The parameter
    `result` is the static array before the call; the second component of the
    value is the static array after it. -/
def GetShadowFrustumDesc {ShadowFrustumDesc LightDesc CameraDesc : Type}
    (scene : SceneQueries ShadowFrustumDesc LightDesc CameraDesc)
    (result : Fin 1 → ShadowFrustumDesc) (index : Nat) :
    Except Exceptions.BasicLabel ShadowFrustumDesc × (Fin 1 → ShadowFrustumDesc) :=
  if h : index ≥ RenderCore.dimof result then
    (Except.error { label := "Bad shadow frustum index" }, result)
  else
    let i : Fin 1 := ⟨index, Nat.lt_of_not_ge h⟩
    let result := Function.update result i
      (scene.CalculateDefaultShadowFrustums (scene.GetLightDesc index) scene.GetCameraDesc)
    (Except.ok (result i), result)

end EnvironmentSceneParser

/-- Sample scene queries for the examples, with natural numbers for the three
    descriptor types: light `index` is `10 * (index + 1)`, the camera is `7`, and
    the frustum of a light and a camera is their sum. -/
def sampleScene : SceneQueries Nat Nat Nat :=
  { CalculateDefaultShadowFrustums := fun light camera => light + camera
    GetLightDesc := fun index => 10 * (index + 1)
    GetCameraDesc := 7 }

end Sample

/-! # Property access of the GUI layer

A shallow embedding of `ClassAccessors_GetAndSet<Type>::TryGetMember` and
`TrySetMember` from `Tools/GUILayer/IterativeSystemDebugger.cpp`.

* The wrapped native object `*_type.get()` is passed in, and the object after
  the call is returned next to the result flag.
* The accessor table returned by `GetAccessors<Type>()`
  (Utility/Meta/ClassAccessors.h), `clix::marshalString` and `Hash64` are
  declared outside this file; they are the fields of `ClassAccessors` and
  `StringUtils`. An accessor may change the object it is given, so each one
  returns the object after the call.
* A `System::Single` is carried by its 32-bit pattern; it is only passed on.
* The `Object^ value` and `System::Type^ type` arguments are not null.
-/

namespace GUILayer

/-- A `float` / `System::Single` value, by its bit pattern. -/
structure Single where
  bits : Nat
  deriving DecidableEq, Repr

/-- A managed `System::Type^`, as far as the code tells types apart. -/
inductive ManagedType where
  | Single
  | UInt32
  | Other (name : String)
  deriving DecidableEq, Repr

/-- A managed `Object^`, as far as the code tells values apart. -/
inductive ManagedObject where
  | Single (v : Single)
  | UInt32 (v : Nat)
  | Other (name : String)
  deriving DecidableEq, Repr

/-- The accessor table `GetAccessors<Type>()`: `TryGet` and `TrySet`, each at
    `float` and at `uint32`. `TryGet(result, src, id)` returns the success flag,
    the value left in `result` and the object after the call;
    `TrySet(value, dst, id)` returns the success flag and the object after the
    call. -/
structure ClassAccessors (Obj : Type) where
  TryGetSingle : Single → Obj → Nat → Bool × Single × Obj
  TryGetUInt32 : Nat → Obj → Nat → Bool × Nat × Obj
  TrySetSingle : Single → Obj → Nat → Bool × Obj
  TrySetUInt32 : Nat → Obj → Nat → Bool × Obj

/-- The string helpers `clix::marshalString<clix::E_UTF8>` and `Hash64`. -/
structure StringUtils where
  marshalString : String → List RenderCore.CChar
  Hash64 : List RenderCore.CChar → Nat

namespace ClassAccessors_GetAndSet

/-- Member function `ClassAccessors_GetAndSet<Type>::TryGetMember`. The value is
    the returned flag, the `result` reference after the call and the wrapped
    object after the call. -/
def TryGetMember {Obj : Type} (u : StringUtils) (accessors : ClassAccessors Obj)
    (_type : Obj) (name : String) (_caseInsensitive : Bool) (type : ManagedType)
    (result : ManagedObject) : Bool × ManagedObject × Obj :=
  let nativeString := u.marshalString name
  match type with
  | ManagedType.Single =>
    let f : Single := { bits := 0 }
    let r := accessors.TryGetSingle f _type (u.Hash64 nativeString)
    let success := r.1
    let f := r.2.1
    let result := if success then ManagedObject.Single f else result
    (success, result, r.2.2)
  | ManagedType.UInt32 =>
    let f : Nat := 0
    let r := accessors.TryGetUInt32 f _type (u.Hash64 nativeString)
    let success := r.1
    let f := r.2.1
    let result := if success then ManagedObject.UInt32 f else result
    (success, result, r.2.2)
  | ManagedType.Other _ => (false, result, _type)

/-- Member function `ClassAccessors_GetAndSet<Type>::TrySetMember`. The value is
    the returned flag and the wrapped object after the call. -/
def TrySetMember {Obj : Type} (u : StringUtils) (accessors : ClassAccessors Obj)
    (_type : Obj) (name : String) (_caseInsensitive : Bool) (value : ManagedObject) :
    Bool × Obj :=
  let nativeString := u.marshalString name
  match value with
  | ManagedObject.Single v =>
    accessors.TrySetSingle v _type (u.Hash64 nativeString)
  | ManagedObject.UInt32 v =>
    let r := accessors.TryGetUInt32 v _type (u.Hash64 nativeString)
    (r.1, r.2.2)
  | ManagedObject.Other _ => (false, _type)

end ClassAccessors_GetAndSet

/-- Sample string helpers for the examples: the character codes of the name, and
    their sum as its hash. -/
def sampleStringUtils : StringUtils :=
  { marshalString := RenderCore.chars
    Hash64 := List.sum }

/-- A sample native object for the examples: a `uint32` property with the name
    "n" (hash 110) and a `float` property with the name "f" (hash 102). -/
structure SampleSettings where
  n : Nat
  f : Single
  deriving DecidableEq, Repr

/-- A sample accessor table for the examples, over `SampleSettings`: `TryGet`
    reads a property without changing the object, `TrySet` overwrites it. -/
def sampleAccessors : ClassAccessors SampleSettings :=
  { TryGetSingle := fun r o id => if id = 102 then (true, o.f, o) else (false, r, o)
    TryGetUInt32 := fun r o id => if id = 110 then (true, o.n, o) else (false, r, o)
    TrySetSingle := fun v o id => if id = 102 then (true, { o with f := v }) else (false, o)
    TrySetUInt32 := fun v o id => if id = 110 then (true, { o with n := v }) else (false, o) }

end GUILayer

namespace RenderCore

/-! ## Facts about the bounded string copy -/

theorem cstr_initial (s : List CChar) : cstr s <+: s :=
  List.takeWhile_prefix _

theorem cstr_ne_zero (s : List CChar) (c : CChar) (h : c ∈ cstr s) : c ≠ 0 := by
  have := List.mem_takeWhile_imp h
  simpa using this

theorem cstr_of_ne_zero (s : List CChar) (h : ∀ c ∈ s, c ≠ 0) : cstr s = s := by
  unfold cstr
  rw [List.takeWhile_eq_self_iff]
  intro c hc
  simpa using h c hc

/-- A list with a terminator at index `k` and none before it holds the C string
    made of its first `k` characters. -/
theorem cstr_eq_take (l : List CChar) (k : Nat) (hk : k < l.length)
    (hne : ∀ i (hi : i < k), l[i] ≠ 0) (hz : l[k] = 0) : cstr l = l.take k := by
  induction l generalizing k with
  | nil => simp at hk
  | cons a l ih =>
    cases k with
    | zero =>
      have ha : a = 0 := by simpa using hz
      simp [cstr, ha]
    | succ k =>
      have ha : a ≠ 0 := by simpa using hne 0 (Nat.succ_pos k)
      have hk2 : k < l.length := by simpa using hk
      have ih2 := ih k hk2
        (fun i hi => by simpa using hne (i + 1) (Nat.succ_lt_succ hi))
        (by simpa using hz)
      unfold cstr at ih2 ⊢
      simp [List.takeWhile_cons, ha, ih2]

theorem XlCopyString_copied {n : Nat} (dst : Fin n → CChar) (size : Nat)
    (src : List CChar) (h0 : 0 < size) (i : Fin n)
    (hi : i.val < min (cstr src).length (size - 1)) :
    XlCopyString dst size src i = (cstr src).getD i.val 0 := by
  have hsz : size ≠ 0 := Nat.pos_iff_ne_zero.mp h0
  show (if size = 0 then dst i
    else if i.val < min (cstr src).length (size - 1) then (cstr src).getD i.val 0
    else if i.val = min (cstr src).length (size - 1) then 0 else dst i) = _
  rw [if_neg hsz, if_pos hi]

/-- The terminator written by `XlCopyString` sits right after the copied
    characters. -/
theorem XlCopyString_terminator {n : Nat} (dst : Fin n → CChar) (size : Nat)
    (src : List CChar) (h0 : 0 < size) (i : Fin n)
    (hi : i.val = min (cstr src).length (size - 1)) :
    XlCopyString dst size src i = 0 := by
  have hsz : size ≠ 0 := Nat.pos_iff_ne_zero.mp h0
  show (if size = 0 then dst i
    else if i.val < min (cstr src).length (size - 1) then (cstr src).getD i.val 0
    else if i.val = min (cstr src).length (size - 1) then 0 else dst i) = _
  rw [if_neg hsz, if_neg (by omega), if_pos hi]

/-- After `XlCopyString` into an array of `n` characters with `0 < size ≤ n`, the
    array holds the first `size - 1` characters of the source string. -/
theorem bufferString_XlCopyString {n : Nat} (dst : Fin n → CChar) (size : Nat)
    (src : List CChar) (h0 : 0 < size) (hn : size ≤ n) :
    bufferString (XlCopyString dst size src) = (cstr src).take (size - 1) := by
  have hcount : min (cstr src).length (size - 1) < n := by omega
  unfold bufferString
  rw [cstr_eq_take (List.ofFn (XlCopyString dst size src))
    (min (cstr src).length (size - 1)) (by simpa using hcount)]
  · apply List.ext_getElem
    · simp only [List.length_take, List.length_ofFn]
      omega
    · intro i h1 h2
      simp only [List.length_take, List.length_ofFn] at h1 h2
      have hi : i < min (cstr src).length (size - 1) := by omega
      have hlen : i < (cstr src).length := by omega
      rw [List.getElem_take, List.getElem_take, List.getElem_ofFn,
        XlCopyString_copied dst size src h0 ⟨i, by omega⟩ hi]
      exact List.getD_eq_getElem _ _ hlen
  · intro i hi
    have hlen : i < (cstr src).length := by omega
    rw [List.getElem_ofFn, XlCopyString_copied dst size src h0 ⟨i, by omega⟩ hi]
    show (cstr src).getD i 0 ≠ 0
    rw [List.getD_eq_getElem _ _ hlen]
    exact cstr_ne_zero src _ (List.getElem_mem hlen)
  · rw [List.getElem_ofFn]
    exact XlCopyString_terminator dst size src h0 ⟨_, hcount⟩ rfl

/-- The name array of a descriptor built by either builder holds the first 47
    characters of the name passed in. -/
theorem CreateDesc_name (desc : ResourceDesc) (bindFlags cpuAccess gpuAccess : Nat)
    (t : TextureDesc) (name : List CChar) :
    bufferString (CreateDesc desc bindFlags cpuAccess gpuAccess t name)._name
      = (cstr name).take 47 :=
  bufferString_XlCopyString desc._name 48 name (by decide) (by decide)

theorem CreateDescLinearBuffer_name (desc : ResourceDesc)
    (bindFlags cpuAccess gpuAccess : Nat) (b : LinearBufferDesc) (name : List CChar) :
    bufferString (CreateDescLinearBuffer desc bindFlags cpuAccess gpuAccess b name)._name
      = (cstr name).take 47 :=
  bufferString_XlCopyString desc._name 48 name (by decide) (by decide)

/-! ## Facts about combined flags -/

theorem lor_eq_zero (a b : Nat) : a ||| b = 0 ↔ a = 0 ∧ b = 0 := by
  constructor
  · intro h
    have hbit : ∀ i, (a.testBit i || b.testBit i) = false := fun i => by
      rw [← Nat.testBit_or, h, Nat.zero_testBit]
    constructor
    · apply Nat.eq_of_testBit_eq
      intro i
      have := hbit i
      rw [Nat.zero_testBit]
      cases ha : a.testBit i
      · rfl
      · rw [ha] at this
        simp at this
    · apply Nat.eq_of_testBit_eq
      intro i
      have := hbit i
      rw [Nat.zero_testBit]
      cases hb : b.testBit i
      · rfl
      · rw [hb] at this
        simp at this
  · rintro ⟨rfl, rfl⟩
    rfl

/-- A mask tests non-zero against a combined bitfield exactly when it tests
    non-zero against one of the combined values. -/
theorem orAll_and_ne_zero (flags : List Nat) (m : Nat) :
    orAll flags &&& m ≠ 0 ↔ ∃ v ∈ flags, v &&& m ≠ 0 := by
  induction flags with
  | nil => simp [orAll]
  | cons v vs ih =>
    have hstep : orAll (v :: vs) &&& m = (v &&& m) ||| (orAll vs &&& m) := by
      show (v ||| orAll vs) &&& m = _
      exact Nat.and_distrib_right v (orAll vs) m
    rw [hstep, Ne, lor_eq_zero, not_and_or]
    constructor
    · rintro (h | h)
      · exact ⟨v, List.mem_cons_self v vs, h⟩
      · obtain ⟨w, hw, hne⟩ := ih.mp h
        exact ⟨w, List.mem_cons_of_mem v hw, hne⟩
    · rintro ⟨w, hw, hne⟩
      rcases List.mem_cons.mp hw with rfl | hw
      · exact Or.inl hne
      · exact Or.inr (ih.mpr ⟨w, hw, hne⟩)

/-- For flag values that pairwise share no bit, a flag tests non-zero against
    the bitwise-or of a list of flags exactly when it is in the list. -/
theorem orAll_map_test {α : Type} (v : α → Nat)
    (hv : ∀ g f, v g &&& v f ≠ 0 ↔ g = f) (S : List α) (f : α) :
    orAll (S.map v) &&& v f ≠ 0 ↔ f ∈ S := by
  rw [orAll_and_ne_zero]
  constructor
  · rintro ⟨w, hw, hne⟩
    obtain ⟨g, hg, rfl⟩ := List.mem_map.mp hw
    rw [← (hv g f).mp hne]
    exact hg
  · intro hf
    exact ⟨v f, List.mem_map_of_mem v hf, (hv f f).mpr rfl⟩

theorem orAll_map_same_members {α : Type} (v : α → Nat)
    (hv : ∀ g f, v g &&& v f ≠ 0 ↔ g = f) (S T : List α)
    (h : orAll (S.map v) = orAll (T.map v)) (f : α) : f ∈ S ↔ f ∈ T := by
  rw [← orAll_map_test v hv S f, h, orAll_map_test v hv T f]

theorem BindFlag_value_test (g f : BindFlag.Enum) :
    g.value &&& f.value ≠ 0 ↔ g = f := by
  cases g <;> cases f <;> decide

theorem GPUAccess_value_test (g f : GPUAccess.Enum) :
    g.value &&& f.value ≠ 0 ↔ g = f := by
  cases g <;> cases f <;> decide

theorem AllocationRules_value_test (g f : AllocationRules.Enum) :
    g.value &&& f.value ≠ 0 ↔ g = f := by
  cases g <;> cases f <;> decide

/-! ## The claims -/

/-- C1. Texture round trip: the texture overload of `CreateDesc` returns a descriptor
    of type `Texture` whose `_textureDesc` payload is the texture descriptor it
    was given, equal to it in every field (width, height, depth, format,
    dimensionality, mipCount, arrayCount, samples). -/
theorem CreateDesc_texture_roundtrip (desc : ResourceDesc)
    (bindFlags cpuAccess gpuAccess : Nat) (t : TextureDesc) (name : List CChar) :
    (CreateDesc desc bindFlags cpuAccess gpuAccess t name)._type
        = ResourceDesc.TypeEnum.Texture ∧
    (CreateDesc desc bindFlags cpuAccess gpuAccess t name)._textureDesc = some t ∧
    ∃ r, (CreateDesc desc bindFlags cpuAccess gpuAccess t name)._textureDesc = some r ∧
      r._width = t._width ∧ r._height = t._height ∧ r._depth = t._depth ∧
      r._format = t._format ∧ r._dimensionality = t._dimensionality ∧
      r._mipCount = t._mipCount ∧ r._arrayCount = t._arrayCount ∧
      r._samples._sampleCount = t._samples._sampleCount ∧
      r._samples._samplingQuality = t._samples._samplingQuality :=
  ⟨rfl, rfl, t, rfl, rfl, rfl, rfl, rfl, rfl, rfl, rfl, rfl, rfl⟩

/-- C2. Linear-buffer round trip: the linear-buffer overload of `CreateDesc` returns a
    descriptor of type `LinearBuffer` (not `Texture`, `Unknown` or `Max`) whose
    `_linearBufferDesc` payload has the `_sizeInBytes` and `_structureByteSize`
    of the descriptor it was given. -/
theorem CreateDesc_linearBuffer_roundtrip (desc : ResourceDesc)
    (bindFlags cpuAccess gpuAccess : Nat) (b : LinearBufferDesc) (name : List CChar) :
    (CreateDescLinearBuffer desc bindFlags cpuAccess gpuAccess b name)._type
        = ResourceDesc.TypeEnum.LinearBuffer ∧
    (CreateDescLinearBuffer desc bindFlags cpuAccess gpuAccess b name)._type
        ≠ ResourceDesc.TypeEnum.Texture ∧
    (CreateDescLinearBuffer desc bindFlags cpuAccess gpuAccess b name)._type
        ≠ ResourceDesc.TypeEnum.Unknown ∧
    (CreateDescLinearBuffer desc bindFlags cpuAccess gpuAccess b name)._type
        ≠ ResourceDesc.TypeEnum.Max ∧
    ∃ r, (CreateDescLinearBuffer desc bindFlags cpuAccess gpuAccess b name)._linearBufferDesc
        = some r ∧
      r._sizeInBytes = b._sizeInBytes ∧ r._structureByteSize = b._structureByteSize :=
  ⟨rfl, by simp [CreateDescLinearBuffer], by simp [CreateDescLinearBuffer],
    by simp [CreateDescLinearBuffer], b, rfl, rfl, rfl⟩

/-- C3. Flags pass through unchanged: both overloads of `CreateDesc` store `bindFlags`,
    `cpuAccess` and `gpuAccess` exactly as given. Example: with
    `RenderTarget | ShaderResource`, CPU access 0, `GPUAccess::Write`,
    `Plain2D(512, 512, F)` and the name "gbuffer0" the result has type `Texture`,
    `_bindFlags = 12`, `_cpuAccess = 0`, `_gpuAccess = 2`, and a texture of width
    512, height 512, depth 1 and dimensionality `T2D`. -/
theorem CreateDesc_flags_pass_through :
    (∀ (desc : ResourceDesc) (bindFlags cpuAccess gpuAccess : Nat) (t : TextureDesc)
        (name : List CChar),
      (CreateDesc desc bindFlags cpuAccess gpuAccess t name)._bindFlags = bindFlags ∧
      (CreateDesc desc bindFlags cpuAccess gpuAccess t name)._cpuAccess = cpuAccess ∧
      (CreateDesc desc bindFlags cpuAccess gpuAccess t name)._gpuAccess = gpuAccess) ∧
    (∀ (desc : ResourceDesc) (bindFlags cpuAccess gpuAccess : Nat) (b : LinearBufferDesc)
        (name : List CChar),
      (CreateDescLinearBuffer desc bindFlags cpuAccess gpuAccess b name)._bindFlags
        = bindFlags ∧
      (CreateDescLinearBuffer desc bindFlags cpuAccess gpuAccess b name)._cpuAccess
        = cpuAccess ∧
      (CreateDescLinearBuffer desc bindFlags cpuAccess gpuAccess b name)._gpuAccess
        = gpuAccess) ∧
    (∀ (desc : ResourceDesc) (F : Format),
      (CreateDesc desc
          (BindFlag.Enum.RenderTarget.value ||| BindFlag.Enum.ShaderResource.value) 0
          GPUAccess.Enum.Write.value (TextureDesc.Plain2D 512 512 F)
          (chars "gbuffer0"))._type = ResourceDesc.TypeEnum.Texture ∧
      (CreateDesc desc
          (BindFlag.Enum.RenderTarget.value ||| BindFlag.Enum.ShaderResource.value) 0
          GPUAccess.Enum.Write.value (TextureDesc.Plain2D 512 512 F)
          (chars "gbuffer0"))._bindFlags = 12 ∧
      (CreateDesc desc
          (BindFlag.Enum.RenderTarget.value ||| BindFlag.Enum.ShaderResource.value) 0
          GPUAccess.Enum.Write.value (TextureDesc.Plain2D 512 512 F)
          (chars "gbuffer0"))._cpuAccess = 0 ∧
      (CreateDesc desc
          (BindFlag.Enum.RenderTarget.value ||| BindFlag.Enum.ShaderResource.value) 0
          GPUAccess.Enum.Write.value (TextureDesc.Plain2D 512 512 F)
          (chars "gbuffer0"))._gpuAccess = 2 ∧
      ∃ r, (CreateDesc desc
          (BindFlag.Enum.RenderTarget.value ||| BindFlag.Enum.ShaderResource.value) 0
          GPUAccess.Enum.Write.value (TextureDesc.Plain2D 512 512 F)
          (chars "gbuffer0"))._textureDesc = some r ∧
        r._width = 512 ∧ r._height = 512 ∧ r._depth = 1 ∧
        r._dimensionality = TextureDesc.Dimensionality.T2D) :=
  ⟨fun _ _ _ _ _ _ => ⟨rfl, rfl, rfl⟩, fun _ _ _ _ _ _ => ⟨rfl, rfl, rfl⟩,
    fun _ F => ⟨rfl, rfl, rfl, rfl, TextureDesc.Plain2D 512 512 F, rfl, rfl, rfl, rfl, rfl⟩⟩

/-- C4. The builders never set an allocation policy: both overloads of `CreateDesc`
    return `_allocationRules = 0`, so none of the bits `Pooled`, `Batched`,
    `Staging`, `NonVolatile` is set. -/
theorem CreateDesc_allocationRules_zero :
    (∀ (desc : ResourceDesc) (bindFlags cpuAccess gpuAccess : Nat) (t : TextureDesc)
        (name : List CChar),
      (CreateDesc desc bindFlags cpuAccess gpuAccess t name)._allocationRules = 0 ∧
      ∀ f : AllocationRules.Enum,
        (CreateDesc desc bindFlags cpuAccess gpuAccess t name)._allocationRules
          &&& f.value = 0) ∧
    (∀ (desc : ResourceDesc) (bindFlags cpuAccess gpuAccess : Nat) (b : LinearBufferDesc)
        (name : List CChar),
      (CreateDescLinearBuffer desc bindFlags cpuAccess gpuAccess b name)._allocationRules
        = 0 ∧
      ∀ f : AllocationRules.Enum,
        (CreateDescLinearBuffer desc bindFlags cpuAccess gpuAccess b name)._allocationRules
          &&& f.value = 0) :=
  ⟨fun _ _ _ _ _ _ => ⟨rfl, fun f => Nat.zero_and f.value⟩,
    fun _ _ _ _ _ _ => ⟨rfl, fun f => Nat.zero_and f.value⟩⟩

/-- C5. Name truncation: for a name longer than 47 characters, each overload of
    `CreateDesc` returns (it is a total function, no error is raised) a descriptor
    whose stored name, read up to its first terminator, is a prefix of the
    input, has at most 47 characters, and is followed by a terminator at an
    index inside the 48-character array. -/
theorem CreateDesc_name_truncated (desc : ResourceDesc)
    (bindFlags cpuAccess gpuAccess : Nat) (t : TextureDesc) (b : LinearBufferDesc)
    (name : List CChar) (_hlong : 47 < name.length) :
    (bufferString (CreateDesc desc bindFlags cpuAccess gpuAccess t name)._name <+: name ∧
      (bufferString (CreateDesc desc bindFlags cpuAccess gpuAccess t name)._name).length
        ≤ 47 ∧
      ∃ i : Fin 48,
        i.val = (bufferString
          (CreateDesc desc bindFlags cpuAccess gpuAccess t name)._name).length ∧
        (CreateDesc desc bindFlags cpuAccess gpuAccess t name)._name i = 0) ∧
    (bufferString (CreateDescLinearBuffer desc bindFlags cpuAccess gpuAccess b name)._name
        <+: name ∧
      (bufferString
        (CreateDescLinearBuffer desc bindFlags cpuAccess gpuAccess b name)._name).length
        ≤ 47 ∧
      ∃ i : Fin 48,
        i.val = (bufferString
          (CreateDescLinearBuffer desc bindFlags cpuAccess gpuAccess b name)._name).length ∧
        (CreateDescLinearBuffer desc bindFlags cpuAccess gpuAccess b name)._name i = 0) := by
  have hpre : (cstr name).take 47 <+: name :=
    List.IsPrefix.trans ( List.take_prefix 47 (cstr name)) (cstr_initial name)
  have hlen : ((cstr name).take 47).length ≤ 47 := by
    rw [List.length_take]
    exact Nat.min_le_left _ _
  have hterm : XlCopyString desc._name 48 name
      ⟨((cstr name).take 47).length, Nat.lt_succ_of_le hlen⟩ = 0 :=
    XlCopyString_terminator desc._name 48 name (by decide) _
      (by
        show ((cstr name).take 47).length = min (cstr name).length (48 - 1)
        rw [List.length_take]
        exact Nat.min_comm _ _)
  rw [CreateDesc_name, CreateDescLinearBuffer_name]
  exact ⟨⟨hpre, hlen, ⟨_, Nat.lt_succ_of_le hlen⟩, rfl, hterm⟩,
    ⟨hpre, hlen, ⟨_, Nat.lt_succ_of_le hlen⟩, rfl, hterm⟩⟩

/-- Example for C5 with a name of 58 characters and a name array that held only
    non-zero bytes before the call. -/
theorem CreateDesc_name_truncated_witness :
    47 < longName.length ∧
    ((bufferString (CreateDesc sampleDesc 12 0 2 TextureDesc.Empty longName)._name
        <+: longName ∧
      (bufferString (CreateDesc sampleDesc 12 0 2 TextureDesc.Empty longName)._name).length
        ≤ 47 ∧
      ∃ i : Fin 48,
        i.val = (bufferString
          (CreateDesc sampleDesc 12 0 2 TextureDesc.Empty longName)._name).length ∧
        (CreateDesc sampleDesc 12 0 2 TextureDesc.Empty longName)._name i = 0) ∧
    (bufferString (CreateDescLinearBuffer sampleDesc 12 0 2
        (LinearBufferDesc.Create 64) longName)._name <+: longName ∧
      (bufferString (CreateDescLinearBuffer sampleDesc 12 0 2
        (LinearBufferDesc.Create 64) longName)._name).length ≤ 47 ∧
      ∃ i : Fin 48,
        i.val = (bufferString (CreateDescLinearBuffer sampleDesc 12 0 2
          (LinearBufferDesc.Create 64) longName)._name).length ∧
        (CreateDescLinearBuffer sampleDesc 12 0 2
          (LinearBufferDesc.Create 64) longName)._name i = 0)) :=
  ⟨by decide,
    CreateDesc_name_truncated sampleDesc 12 0 2 TextureDesc.Empty
      (LinearBufferDesc.Create 64) longName (by decide)⟩

/-- C6. Names that fit are kept whole: for a name of at most 47 characters, none
    of them a terminator, each overload of `CreateDesc` returns a descriptor whose
    stored name equals the input. -/
theorem CreateDesc_name_kept (desc : ResourceDesc)
    (bindFlags cpuAccess gpuAccess : Nat) (t : TextureDesc) (b : LinearBufferDesc)
    (name : List CChar) (hlen : name.length ≤ 47) (hz : ∀ c ∈ name, c ≠ 0) :
    bufferString (CreateDesc desc bindFlags cpuAccess gpuAccess t name)._name = name ∧
    bufferString (CreateDescLinearBuffer desc bindFlags cpuAccess gpuAccess b name)._name
      = name := by
  rw [CreateDesc_name, CreateDescLinearBuffer_name, cstr_of_ne_zero name hz,
    List.take_of_length_le hlen]
  exact ⟨rfl, rfl⟩

/-- Example for C6: the name "gbuffer0" is stored as "gbuffer0". -/
theorem CreateDesc_name_kept_witness :
    (chars "gbuffer0").length ≤ 47 ∧ (∀ c ∈ chars "gbuffer0", c ≠ 0) ∧
    bufferString (CreateDesc sampleDesc 12 0 2
      (TextureDesc.Plain2D 512 512 { value := 0 }) (chars "gbuffer0"))._name
      = chars "gbuffer0" ∧
    bufferString (CreateDescLinearBuffer sampleDesc 12 0 2
      (LinearBufferDesc.Create 64) (chars "gbuffer0"))._name = chars "gbuffer0" :=
  ⟨by decide, by decide,
    CreateDesc_name_kept sampleDesc 12 0 2 (TextureDesc.Plain2D 512 512 { value := 0 })
      (LinearBufferDesc.Create 64) (chars "gbuffer0") (by decide) (by decide)⟩

/-- C7. Flag sets are independent: for either overload of `CreateDesc`, two calls that
    differ only in `bindFlags` agree on `_cpuAccess`, `_gpuAccess`,
    `_allocationRules`, type, payload and name; two calls that differ only in
    `cpuAccess` agree on `_bindFlags`, `_gpuAccess` and `_allocationRules`; two
    calls that differ only in `gpuAccess` agree on `_bindFlags`, `_cpuAccess` and
    `_allocationRules`. -/
theorem CreateDesc_flags_independent :
    (∀ (desc : ResourceDesc) (x y cpuAccess gpuAccess : Nat) (t : TextureDesc)
        (b : LinearBufferDesc) (name : List CChar),
      ((CreateDesc desc x cpuAccess gpuAccess t name)._cpuAccess
          = (CreateDesc desc y cpuAccess gpuAccess t name)._cpuAccess ∧
        (CreateDesc desc x cpuAccess gpuAccess t name)._gpuAccess
          = (CreateDesc desc y cpuAccess gpuAccess t name)._gpuAccess ∧
        (CreateDesc desc x cpuAccess gpuAccess t name)._allocationRules
          = (CreateDesc desc y cpuAccess gpuAccess t name)._allocationRules ∧
        (CreateDesc desc x cpuAccess gpuAccess t name)._type
          = (CreateDesc desc y cpuAccess gpuAccess t name)._type ∧
        (CreateDesc desc x cpuAccess gpuAccess t name).payload
          = (CreateDesc desc y cpuAccess gpuAccess t name).payload ∧
        (CreateDesc desc x cpuAccess gpuAccess t name)._name
          = (CreateDesc desc y cpuAccess gpuAccess t name)._name) ∧
      ((CreateDescLinearBuffer desc x cpuAccess gpuAccess b name)._cpuAccess
          = (CreateDescLinearBuffer desc y cpuAccess gpuAccess b name)._cpuAccess ∧
        (CreateDescLinearBuffer desc x cpuAccess gpuAccess b name)._gpuAccess
          = (CreateDescLinearBuffer desc y cpuAccess gpuAccess b name)._gpuAccess ∧
        (CreateDescLinearBuffer desc x cpuAccess gpuAccess b name)._allocationRules
          = (CreateDescLinearBuffer desc y cpuAccess gpuAccess b name)._allocationRules ∧
        (CreateDescLinearBuffer desc x cpuAccess gpuAccess b name)._type
          = (CreateDescLinearBuffer desc y cpuAccess gpuAccess b name)._type ∧
        (CreateDescLinearBuffer desc x cpuAccess gpuAccess b name).payload
          = (CreateDescLinearBuffer desc y cpuAccess gpuAccess b name).payload ∧
        (CreateDescLinearBuffer desc x cpuAccess gpuAccess b name)._name
          = (CreateDescLinearBuffer desc y cpuAccess gpuAccess b name)._name)) ∧
    (∀ (desc : ResourceDesc) (bindFlags x y gpuAccess : Nat) (t : TextureDesc)
        (b : LinearBufferDesc) (name : List CChar),
      ((CreateDesc desc bindFlags x gpuAccess t name)._bindFlags
          = (CreateDesc desc bindFlags y gpuAccess t name)._bindFlags ∧
        (CreateDesc desc bindFlags x gpuAccess t name)._gpuAccess
          = (CreateDesc desc bindFlags y gpuAccess t name)._gpuAccess ∧
        (CreateDesc desc bindFlags x gpuAccess t name)._allocationRules
          = (CreateDesc desc bindFlags y gpuAccess t name)._allocationRules) ∧
      ((CreateDescLinearBuffer desc bindFlags x gpuAccess b name)._bindFlags
          = (CreateDescLinearBuffer desc bindFlags y gpuAccess b name)._bindFlags ∧
        (CreateDescLinearBuffer desc bindFlags x gpuAccess b name)._gpuAccess
          = (CreateDescLinearBuffer desc bindFlags y gpuAccess b name)._gpuAccess ∧
        (CreateDescLinearBuffer desc bindFlags x gpuAccess b name)._allocationRules
          = (CreateDescLinearBuffer desc bindFlags y gpuAccess b name)._allocationRules)) ∧
    (∀ (desc : ResourceDesc) (bindFlags cpuAccess x y : Nat) (t : TextureDesc)
        (b : LinearBufferDesc) (name : List CChar),
      ((CreateDesc desc bindFlags cpuAccess x t name)._bindFlags
          = (CreateDesc desc bindFlags cpuAccess y t name)._bindFlags ∧
        (CreateDesc desc bindFlags cpuAccess x t name)._cpuAccess
          = (CreateDesc desc bindFlags cpuAccess y t name)._cpuAccess ∧
        (CreateDesc desc bindFlags cpuAccess x t name)._allocationRules
          = (CreateDesc desc bindFlags cpuAccess y t name)._allocationRules) ∧
      ((CreateDescLinearBuffer desc bindFlags cpuAccess x b name)._bindFlags
          = (CreateDescLinearBuffer desc bindFlags cpuAccess y b name)._bindFlags ∧
        (CreateDescLinearBuffer desc bindFlags cpuAccess x b name)._cpuAccess
          = (CreateDescLinearBuffer desc bindFlags cpuAccess y b name)._cpuAccess ∧
        (CreateDescLinearBuffer desc bindFlags cpuAccess x b name)._allocationRules
          = (CreateDescLinearBuffer desc bindFlags cpuAccess y b name)._allocationRules)) :=
  ⟨fun _ _ _ _ _ _ _ _ => ⟨⟨rfl, rfl, rfl, rfl, rfl, rfl⟩, ⟨rfl, rfl, rfl, rfl, rfl, rfl⟩⟩,
    fun _ _ _ _ _ _ _ _ => ⟨⟨rfl, rfl, rfl⟩, ⟨rfl, rfl, rfl⟩⟩,
    fun _ _ _ _ _ _ _ _ => ⟨⟨rfl, rfl, rfl⟩, ⟨rfl, rfl, rfl⟩⟩⟩

/-- C8. `TextureDesc::Plain1D(width, format, mipCount, arrayCount)` returns height 1,
    depth 1, dimensionality `T1D`, samples (sampleCount 1, samplingQuality 0),
    and the width, format, mipCount and arrayCount it was given. -/
theorem Plain1D_fields (width : Nat) (format : Format) (mipCount arrayCount : Nat) :
    (TextureDesc.Plain1D width format mipCount arrayCount)._height = 1 ∧
    (TextureDesc.Plain1D width format mipCount arrayCount)._depth = 1 ∧
    (TextureDesc.Plain1D width format mipCount arrayCount)._dimensionality
      = TextureDesc.Dimensionality.T1D ∧
    (TextureDesc.Plain1D width format mipCount arrayCount)._samples._sampleCount = 1 ∧
    (TextureDesc.Plain1D width format mipCount arrayCount)._samples._samplingQuality = 0 ∧
    (TextureDesc.Plain1D width format mipCount arrayCount)._width = width ∧
    (TextureDesc.Plain1D width format mipCount arrayCount)._format = format ∧
    (TextureDesc.Plain1D width format mipCount arrayCount)._mipCount = mipCount ∧
    (TextureDesc.Plain1D width format mipCount arrayCount)._arrayCount = arrayCount :=
  ⟨rfl, rfl, rfl, rfl, rfl, rfl, rfl, rfl, rfl⟩

/-- C9. `TextureDesc::Plain2D(width, height, format, mipCount, arrayCount, samples)`
    returns depth 1, dimensionality `T2D`, and the width, height, format,
    mipCount, arrayCount and samples (sampleCount and samplingQuality) it was
    given. -/
theorem Plain2D_fields (width height : Nat) (format : Format) (mipCount arrayCount : Nat)
    (samples : TextureSamples) :
    (TextureDesc.Plain2D width height format mipCount arrayCount samples)._depth = 1 ∧
    (TextureDesc.Plain2D width height format mipCount arrayCount samples)._dimensionality
      = TextureDesc.Dimensionality.T2D ∧
    (TextureDesc.Plain2D width height format mipCount arrayCount samples)._width = width ∧
    (TextureDesc.Plain2D width height format mipCount arrayCount samples)._height = height ∧
    (TextureDesc.Plain2D width height format mipCount arrayCount samples)._format = format ∧
    (TextureDesc.Plain2D width height format mipCount arrayCount samples)._mipCount
      = mipCount ∧
    (TextureDesc.Plain2D width height format mipCount arrayCount samples)._arrayCount
      = arrayCount ∧
    (TextureDesc.Plain2D width height format mipCount arrayCount samples)._samples._sampleCount
      = samples._sampleCount ∧
    (TextureDesc.Plain2D width height format mipCount arrayCount
      samples)._samples._samplingQuality = samples._samplingQuality :=
  ⟨rfl, rfl, rfl, rfl, rfl, rfl, rfl, rfl, rfl⟩

/-- C10. `TextureDesc::Plain3D(width, height, depth, format, mipCount)` returns
    arrayCount 0, samples (sampleCount 1, samplingQuality 0), dimensionality
    `T3D`, and the width, height, depth, format and mipCount it was given. -/
theorem Plain3D_fields (width height depth : Nat) (format : Format) (mipCount : Nat) :
    (TextureDesc.Plain3D width height depth format mipCount)._arrayCount = 0 ∧
    (TextureDesc.Plain3D width height depth format mipCount)._samples._sampleCount = 1 ∧
    (TextureDesc.Plain3D width height depth format mipCount)._samples._samplingQuality = 0 ∧
    (TextureDesc.Plain3D width height depth format mipCount)._dimensionality
      = TextureDesc.Dimensionality.T3D ∧
    (TextureDesc.Plain3D width height depth format mipCount)._width = width ∧
    (TextureDesc.Plain3D width height depth format mipCount)._height = height ∧
    (TextureDesc.Plain3D width height depth format mipCount)._depth = depth ∧
    (TextureDesc.Plain3D width height depth format mipCount)._format = format ∧
    (TextureDesc.Plain3D width height depth format mipCount)._mipCount = mipCount :=
  ⟨rfl, rfl, rfl, rfl, rfl, rfl, rfl, rfl, rfl⟩

/-- C11. `TextureDesc::Empty()` returns the all-zero sentinel: width, height and depth
    0, mipCount 0, arrayCount 0 and format 0. -/
theorem Empty_all_zero :
    TextureDesc.Empty._width = 0 ∧ TextureDesc.Empty._height = 0 ∧
    TextureDesc.Empty._depth = 0 ∧ TextureDesc.Empty._mipCount = 0 ∧
    TextureDesc.Empty._arrayCount = 0 ∧ TextureDesc.Empty._format.value = 0 :=
  ⟨rfl, rfl, rfl, rfl, rfl, rfl⟩

/-- C12, as stated, fails for `Empty()`: its dimensionality is `T1D` while its height
    and depth are 0, not 1. -/
theorem Empty_breaks_dimensionality_consistency :
    ¬ ((TextureDesc.Empty._dimensionality = TextureDesc.Dimensionality.T1D →
          TextureDesc.Empty._height = 1 ∧ TextureDesc.Empty._depth = 1) ∧
        (TextureDesc.Empty._dimensionality = TextureDesc.Dimensionality.T2D →
          TextureDesc.Empty._depth = 1)) := by
  decide

/-- C12, amended. Every descriptor returned by `Plain1D`, `Plain2D` or `Plain3D`
    satisfies: dimensionality `T1D` implies height 1 and depth 1, and
    dimensionality `T2D` implies depth 1. `Empty()` is the exception: it has
    dimensionality `T1D` with height 0 and depth 0. -/
theorem factories_dimensionality_consistent :
    (∀ (width : Nat) (format : Format) (mipCount arrayCount : Nat),
      ((TextureDesc.Plain1D width format mipCount arrayCount)._dimensionality
          = TextureDesc.Dimensionality.T1D →
        (TextureDesc.Plain1D width format mipCount arrayCount)._height = 1 ∧
        (TextureDesc.Plain1D width format mipCount arrayCount)._depth = 1) ∧
      ((TextureDesc.Plain1D width format mipCount arrayCount)._dimensionality
          = TextureDesc.Dimensionality.T2D →
        (TextureDesc.Plain1D width format mipCount arrayCount)._depth = 1)) ∧
    (∀ (width height : Nat) (format : Format) (mipCount arrayCount : Nat)
        (samples : TextureSamples),
      ((TextureDesc.Plain2D width height format mipCount arrayCount samples)._dimensionality
          = TextureDesc.Dimensionality.T1D →
        (TextureDesc.Plain2D width height format mipCount arrayCount samples)._height = 1 ∧
        (TextureDesc.Plain2D width height format mipCount arrayCount samples)._depth = 1) ∧
      ((TextureDesc.Plain2D width height format mipCount arrayCount samples)._dimensionality
          = TextureDesc.Dimensionality.T2D →
        (TextureDesc.Plain2D width height format mipCount arrayCount samples)._depth = 1)) ∧
    (∀ (width height depth : Nat) (format : Format) (mipCount : Nat),
      ((TextureDesc.Plain3D width height depth format mipCount)._dimensionality
          = TextureDesc.Dimensionality.T1D →
        (TextureDesc.Plain3D width height depth format mipCount)._height = 1 ∧
        (TextureDesc.Plain3D width height depth format mipCount)._depth = 1) ∧
      ((TextureDesc.Plain3D width height depth format mipCount)._dimensionality
          = TextureDesc.Dimensionality.T2D →
        (TextureDesc.Plain3D width height depth format mipCount)._depth = 1)) ∧
    (TextureDesc.Empty._dimensionality = TextureDesc.Dimensionality.T1D ∧
      TextureDesc.Empty._height = 0 ∧ TextureDesc.Empty._depth = 0) := by
  refine ⟨fun _ _ _ _ => ⟨fun _ => ⟨rfl, rfl⟩, fun _ => rfl⟩,
    fun _ _ _ _ _ _ => ⟨fun h => ?_, fun _ => rfl⟩,
    fun _ _ _ _ _ => ⟨fun h => ?_, fun h => ?_⟩, rfl, rfl, rfl⟩
  · exact absurd h (by simp [TextureDesc.Plain2D])
  · exact absurd h (by simp [TextureDesc.Plain3D])
  · exact absurd h (by simp [TextureDesc.Plain3D])

/-- C13. `LinearBufferDesc::Create` is plain value construction: it is total, it
    stores both arguments unchanged (also for `sizeInBytes = 0`), and with
    `structureByteSize` omitted the stored structure size is 0. -/
theorem LinearBufferDesc_Create_fields :
    (∀ sizeInBytes structureByteSize : Nat,
      (LinearBufferDesc.Create sizeInBytes structureByteSize)._sizeInBytes = sizeInBytes ∧
      (LinearBufferDesc.Create sizeInBytes structureByteSize)._structureByteSize
        = structureByteSize) ∧
    (∀ structureByteSize : Nat,
      (LinearBufferDesc.Create 0 structureByteSize)._sizeInBytes = 0 ∧
      (LinearBufferDesc.Create 0 structureByteSize)._structureByteSize
        = structureByteSize) ∧
    (∀ sizeInBytes : Nat,
      (LinearBufferDesc.Create sizeInBytes)._sizeInBytes = sizeInBytes ∧
      (LinearBufferDesc.Create sizeInBytes)._structureByteSize = 0) :=
  ⟨fun _ _ => ⟨rfl, rfl⟩, fun _ => ⟨rfl, rfl⟩, fun _ => ⟨rfl, rfl⟩⟩

/-- C14. The structured-buffer invariant is not enforced by construction:
    `LinearBufferDesc::Create(10, 4)`, and the descriptor `CreateDesc` builds from
    it, hold sizes for which
    `structureByteSize == 0 || sizeInBytes % structureByteSize == 0` is false. -/
theorem structured_invariant_not_enforced :
    ¬ ((LinearBufferDesc.Create 10 4)._structureByteSize = 0 ∨
        (LinearBufferDesc.Create 10 4)._sizeInBytes
          % (LinearBufferDesc.Create 10 4)._structureByteSize = 0) ∧
    ∀ (desc : ResourceDesc) (bindFlags cpuAccess gpuAccess : Nat) (name : List CChar),
      ∃ r, (CreateDescLinearBuffer desc bindFlags cpuAccess gpuAccess
          (LinearBufferDesc.Create 10 4) name)._linearBufferDesc = some r ∧
        ¬ (r._structureByteSize = 0 ∨ r._sizeInBytes % r._structureByteSize = 0) :=
  ⟨by decide, fun _ _ _ _ _ => ⟨LinearBufferDesc.Create 10 4, rfl, by decide⟩⟩

/-- C15. `WriteDynamic` implies `Write`: `CPUAccess::WriteDynamic` is
    `6 = (1 << 2) | CPUAccess::Write`, so a bitfield that contains all of
    `WriteDynamic` contains `Write`; and `CPUAccess::Read` is 1 and shares no bit
    with `Write` or `WriteDynamic`. -/
theorem WriteDynamic_implies_Write :
    CPUAccess.Enum.WriteDynamic.value = 6 ∧
    CPUAccess.Enum.WriteDynamic.value = (1 <<< 2) ||| CPUAccess.Enum.Write.value ∧
    (∀ b : CPUAccess.BitField,
      b &&& CPUAccess.Enum.WriteDynamic.value = CPUAccess.Enum.WriteDynamic.value →
      b &&& CPUAccess.Enum.Write.value = CPUAccess.Enum.Write.value) ∧
    CPUAccess.Enum.Read.value = 1 ∧
    CPUAccess.Enum.Read.value &&& CPUAccess.Enum.Write.value = 0 ∧
    CPUAccess.Enum.Read.value &&& CPUAccess.Enum.WriteDynamic.value = 0 := by
  refine ⟨by decide, by decide, fun b h => ?_, by decide, by decide, by decide⟩
  have h6 : b &&& 6 = 6 := h
  show b &&& 2 = 2
  calc b &&& 2 = b &&& (6 &&& 2) := rfl
    _ = (b &&& 6) &&& 2 := (Nat.and_assoc b 6 2).symm
    _ = 6 &&& 2 := by rw [h6]
    _ = 2 := rfl

/-- Example for C15: the bitfield `Read | WriteDynamic = 7` contains
    `WriteDynamic`, and it contains `Write`. -/
theorem WriteDynamic_implies_Write_witness :
    (CPUAccess.Enum.Read.value ||| CPUAccess.Enum.WriteDynamic.value)
        &&& CPUAccess.Enum.WriteDynamic.value = CPUAccess.Enum.WriteDynamic.value ∧
    (CPUAccess.Enum.Read.value ||| CPUAccess.Enum.WriteDynamic.value)
        &&& CPUAccess.Enum.Write.value = CPUAccess.Enum.Write.value :=
  ⟨by decide,
    WriteDynamic_implies_Write.2.2.1
      (CPUAccess.Enum.Read.value ||| CPUAccess.Enum.WriteDynamic.value) (by decide)⟩

/-- C16. Flags are combinable without loss. In each of `BindFlag` (values
    `2^0 .. 2^10`), `GPUAccess` (`2^0, 2^1`) and `AllocationRules`
    (`2^0 .. 2^3`) the enumerators are pairwise distinct single bits; the
    bitwise-or of any list of flags of one namespace tests non-zero against a
    flag exactly when that flag is in the list; and two lists with the same
    bitwise-or have the same members. -/
theorem flags_combinable :
    ((∀ f : BindFlag.Enum, ∃ k < 11, f.value = 2 ^ k) ∧
      (∀ k < 11, ∃ f : BindFlag.Enum, f.value = 2 ^ k) ∧
      (∀ f g : BindFlag.Enum, f.value = g.value → f = g) ∧
      (∀ (S : List BindFlag.Enum) (f : BindFlag.Enum),
        orAll (S.map BindFlag.Enum.value) &&& f.value ≠ 0 ↔ f ∈ S) ∧
      (∀ S T : List BindFlag.Enum,
        orAll (S.map BindFlag.Enum.value) = orAll (T.map BindFlag.Enum.value) →
        ∀ f, f ∈ S ↔ f ∈ T)) ∧
    ((∀ f : GPUAccess.Enum, ∃ k < 2, f.value = 2 ^ k) ∧
      (∀ k < 2, ∃ f : GPUAccess.Enum, f.value = 2 ^ k) ∧
      (∀ f g : GPUAccess.Enum, f.value = g.value → f = g) ∧
      (∀ (S : List GPUAccess.Enum) (f : GPUAccess.Enum),
        orAll (S.map GPUAccess.Enum.value) &&& f.value ≠ 0 ↔ f ∈ S) ∧
      (∀ S T : List GPUAccess.Enum,
        orAll (S.map GPUAccess.Enum.value) = orAll (T.map GPUAccess.Enum.value) →
        ∀ f, f ∈ S ↔ f ∈ T)) ∧
    ((∀ f : AllocationRules.Enum, ∃ k < 4, f.value = 2 ^ k) ∧
      (∀ k < 4, ∃ f : AllocationRules.Enum, f.value = 2 ^ k) ∧
      (∀ f g : AllocationRules.Enum, f.value = g.value → f = g) ∧
      (∀ (S : List AllocationRules.Enum) (f : AllocationRules.Enum),
        orAll (S.map AllocationRules.Enum.value) &&& f.value ≠ 0 ↔ f ∈ S) ∧
      (∀ S T : List AllocationRules.Enum,
        orAll (S.map AllocationRules.Enum.value)
          = orAll (T.map AllocationRules.Enum.value) →
        ∀ f, f ∈ S ↔ f ∈ T)) := by
  refine ⟨⟨?_, ?_, ?_, orAll_map_test _ BindFlag_value_test,
      orAll_map_same_members _ BindFlag_value_test⟩,
    ⟨?_, ?_, ?_, orAll_map_test _ GPUAccess_value_test,
      orAll_map_same_members _ GPUAccess_value_test⟩,
    ⟨?_, ?_, ?_, orAll_map_test _ AllocationRules_value_test,
      orAll_map_same_members _ AllocationRules_value_test⟩⟩
  · intro f
    cases f <;> decide
  · intro k hk
    interval_cases k
    · exact ⟨BindFlag.Enum.VertexBuffer, rfl⟩
    · exact ⟨BindFlag.Enum.IndexBuffer, rfl⟩
    · exact ⟨BindFlag.Enum.ShaderResource, rfl⟩
    · exact ⟨BindFlag.Enum.RenderTarget, rfl⟩
    · exact ⟨BindFlag.Enum.DepthStencil, rfl⟩
    · exact ⟨BindFlag.Enum.UnorderedAccess, rfl⟩
    · exact ⟨BindFlag.Enum.StructuredBuffer, rfl⟩
    · exact ⟨BindFlag.Enum.ConstantBuffer, rfl⟩
    · exact ⟨BindFlag.Enum.StreamOutput, rfl⟩
    · exact ⟨BindFlag.Enum.DrawIndirectArgs, rfl⟩
    · exact ⟨BindFlag.Enum.RawViews, rfl⟩
  · intro f g
    cases f <;> cases g <;> decide
  · intro f
    cases f <;> decide
  · intro k hk
    interval_cases k
    · exact ⟨GPUAccess.Enum.Read, rfl⟩
    · exact ⟨GPUAccess.Enum.Write, rfl⟩
  · intro f g
    cases f <;> cases g <;> decide
  · intro f
    cases f <;> decide
  · intro k hk
    interval_cases k
    · exact ⟨AllocationRules.Enum.Pooled, rfl⟩
    · exact ⟨AllocationRules.Enum.Batched, rfl⟩
    · exact ⟨AllocationRules.Enum.Staging, rfl⟩
    · exact ⟨AllocationRules.Enum.NonVolatile, rfl⟩
  · intro f g
    cases f <;> cases g <;> decide

end RenderCore

namespace HeightsSample

/-- The cubic in `t` that `EvaluateCubicCurve` computes, in powers of `t`. -/
theorem EvaluateCubicCurve_powers (pm0 p0 p1 p2 t : ℚ) :
    EvaluateCubicCurve pm0 p0 p1 p2 t
      = p0 + (p1 - pm0) / 2 * t + (2 * pm0 - 5 * p0 + 4 * p1 - p2) / 2 * t ^ 2
        + (-pm0 + 3 * p0 - 3 * p1 + p2) / 2 * t ^ 3 := by
  simp only [EvaluateCubicCurve]
  ring

/-- The derivative of `EvaluateCubicCurve` in `t`. -/
theorem EvaluateCubicCurve_hasDerivAt (pm0 p0 p1 p2 t : ℚ) :
    HasDerivAt (fun s => EvaluateCubicCurve pm0 p0 p1 p2 s)
      ((p1 - pm0) / 2 + (2 * pm0 - 5 * p0 + 4 * p1 - p2) * t
        + 3 * ((-pm0 + 3 * p0 - 3 * p1 + p2) / 2) * t ^ 2) t := by
  have hfun : (fun s => EvaluateCubicCurve pm0 p0 p1 p2 s) = fun s : ℚ =>
      p0 + (p1 - pm0) / 2 * s + (2 * pm0 - 5 * p0 + 4 * p1 - p2) / 2 * s ^ 2
        + (-pm0 + 3 * p0 - 3 * p1 + p2) / 2 * s ^ 3 :=
    funext (EvaluateCubicCurve_powers pm0 p0 p1 p2)
  rw [hfun]
  have h1 : HasDerivAt (fun s : ℚ => s) 1 t := hasDerivAt_id t
  have h2 : HasDerivAt (fun s : ℚ => s ^ 2) (2 * t) t := by
    simpa using hasDerivAt_pow 2 t
  have h3 : HasDerivAt (fun s : ℚ => s ^ 3) (3 * t ^ 2) t := by
    simpa using hasDerivAt_pow 3 t
  have hsum := (((hasDerivAt_const t p0).add (h1.const_mul ((p1 - pm0) / 2))).add
    (h2.const_mul ((2 * pm0 - 5 * p0 + 4 * p1 - p2) / 2))).add
    (h3.const_mul ((-pm0 + 3 * p0 - 3 * p1 + p2) / 2))
  convert hsum using 1
  ring

/-- C17. Over exact arithmetic `EvaluateCubicCurve` is the Catmull-Rom curve through
    the given points. It returns `p0` at `t = 0` and `p1` at `t = 1`; its slope
    there is the Catmull-Rom tangent, `(p1 - pm0) / 2` at `t = 0` and
    `(p2 - p0) / 2` at `t = 1`; for every `t` it is the cubic Hermite curve with
    these end points and tangents; and for every `t` it equals the Catmull-Rom
    polynomial
    `(2 p0 + (p1 - pm0) t + (2 pm0 - 5 p0 + 4 p1 - p2) t^2 + (-pm0 + 3 p0 - 3 p1 + p2) t^3) / 2`. -/
theorem EvaluateCubicCurve_catmull_rom (pm0 p0 p1 p2 : ℚ) :
    EvaluateCubicCurve pm0 p0 p1 p2 0 = p0 ∧
    EvaluateCubicCurve pm0 p0 p1 p2 1 = p1 ∧
    HasDerivAt (fun t => EvaluateCubicCurve pm0 p0 p1 p2 t) ((p1 - pm0) / 2) 0 ∧
    HasDerivAt (fun t => EvaluateCubicCurve pm0 p0 p1 p2 t) ((p2 - p0) / 2) 1 ∧
    (∀ t : ℚ, EvaluateCubicCurve pm0 p0 p1 p2 t
      = (2 * t ^ 3 - 3 * t ^ 2 + 1) * p0 + (t ^ 3 - 2 * t ^ 2 + t) * ((p1 - pm0) / 2)
        + (-2 * t ^ 3 + 3 * t ^ 2) * p1 + (t ^ 3 - t ^ 2) * ((p2 - p0) / 2)) ∧
    (∀ t : ℚ, EvaluateCubicCurve pm0 p0 p1 p2 t
      = (2 * p0 + (p1 - pm0) * t + (2 * pm0 - 5 * p0 + 4 * p1 - p2) * t ^ 2
          + (-pm0 + 3 * p0 - 3 * p1 + p2) * t ^ 3) / 2) := by
  refine ⟨?_, ?_, ?_, ?_, fun t => ?_, fun t => ?_⟩
  · simp only [EvaluateCubicCurve]
    ring
  · simp only [EvaluateCubicCurve]
    ring
  · have h := EvaluateCubicCurve_hasDerivAt pm0 p0 p1 p2 0
    convert h using 1
    ring
  · have h := EvaluateCubicCurve_hasDerivAt pm0 p0 p1 p2 1
    convert h using 1
    ring
  · simp only [EvaluateCubicCurve]
    ring
  · simp only [EvaluateCubicCurve]
    ring

end HeightsSample

namespace RenderCore

/-- C18. `TextureDesc::Empty()` is not zero in every field: its samples are the
    default `TextureSamples::Create()` (sampleCount 1, samplingQuality 0) and its
    dimensionality is `T1D`. -/
theorem Empty_samples_and_dimensionality :
    TextureDesc.Empty._samples = TextureSamples.Create ∧
    TextureDesc.Empty._samples._sampleCount = 1 ∧
    TextureDesc.Empty._samples._samplingQuality = 0 ∧
    TextureDesc.Empty._dimensionality = TextureDesc.Dimensionality.T1D :=
  ⟨rfl, rfl, rfl, rfl⟩

/-- C19. Which factory outputs have width, height and depth all zero: no result of
    `Plain1D` or `Plain2D`; a result of `Plain3D` exactly when width, height and
    depth were all passed as 0; and `Empty()` differs from every result of
    `Plain1D` (in height), `Plain2D` (in depth) and `Plain3D` (in
    dimensionality). -/
theorem unset_marker_of_factories :
    (∀ (width : Nat) (format : Format) (mipCount arrayCount : Nat),
      ¬ ((TextureDesc.Plain1D width format mipCount arrayCount)._width = 0 ∧
        (TextureDesc.Plain1D width format mipCount arrayCount)._height = 0 ∧
        (TextureDesc.Plain1D width format mipCount arrayCount)._depth = 0)) ∧
    (∀ (width height : Nat) (format : Format) (mipCount arrayCount : Nat)
        (samples : TextureSamples),
      ¬ ((TextureDesc.Plain2D width height format mipCount arrayCount samples)._width = 0 ∧
        (TextureDesc.Plain2D width height format mipCount arrayCount samples)._height = 0 ∧
        (TextureDesc.Plain2D width height format mipCount arrayCount samples)._depth = 0)) ∧
    (∀ (width height depth : Nat) (format : Format) (mipCount : Nat),
      ((TextureDesc.Plain3D width height depth format mipCount)._width = 0 ∧
        (TextureDesc.Plain3D width height depth format mipCount)._height = 0 ∧
        (TextureDesc.Plain3D width height depth format mipCount)._depth = 0) ↔
      (width = 0 ∧ height = 0 ∧ depth = 0)) ∧
    (∀ (width : Nat) (format : Format) (mipCount arrayCount : Nat),
      TextureDesc.Empty ≠ TextureDesc.Plain1D width format mipCount arrayCount ∧
      TextureDesc.Empty._height
        ≠ (TextureDesc.Plain1D width format mipCount arrayCount)._height) ∧
    (∀ (width height : Nat) (format : Format) (mipCount arrayCount : Nat)
        (samples : TextureSamples),
      TextureDesc.Empty ≠ TextureDesc.Plain2D width height format mipCount arrayCount samples ∧
      TextureDesc.Empty._depth
        ≠ (TextureDesc.Plain2D width height format mipCount arrayCount samples)._depth) ∧
    (∀ (width height depth : Nat) (format : Format) (mipCount : Nat),
      TextureDesc.Empty ≠ TextureDesc.Plain3D width height depth format mipCount ∧
      TextureDesc.Empty._dimensionality
        ≠ (TextureDesc.Plain3D width height depth format mipCount)._dimensionality) := by
  have h1 : ∀ (width : Nat) (format : Format) (mipCount arrayCount : Nat),
      TextureDesc.Empty._height
        ≠ (TextureDesc.Plain1D width format mipCount arrayCount)._height :=
    fun _ _ _ _ => by simp [TextureDesc.Empty, TextureDesc.Plain1D]
  have h2 : ∀ (width height : Nat) (format : Format) (mipCount arrayCount : Nat)
      (samples : TextureSamples),
      TextureDesc.Empty._depth
        ≠ (TextureDesc.Plain2D width height format mipCount arrayCount samples)._depth :=
    fun _ _ _ _ _ _ => by simp [TextureDesc.Empty, TextureDesc.Plain2D]
  have h3 : ∀ (width height depth : Nat) (format : Format) (mipCount : Nat),
      TextureDesc.Empty._dimensionality
        ≠ (TextureDesc.Plain3D width height depth format mipCount)._dimensionality :=
    fun _ _ _ _ _ => by simp [TextureDesc.Empty, TextureDesc.Plain3D]
  refine ⟨fun _ _ _ _ h => ?_, fun _ _ _ _ _ _ h => ?_, fun _ _ _ _ _ => Iff.rfl,
    fun w f m a => ⟨fun h => h1 w f m a (congrArg TextureDesc._height h), h1 w f m a⟩,
    fun w h f m a s => ⟨fun e => h2 w h f m a s (congrArg TextureDesc._depth e), h2 w h f m a s⟩,
    fun w h d f m =>
      ⟨fun e => h3 w h d f m (congrArg TextureDesc._dimensionality e), h3 w h d f m⟩⟩
  · exact absurd h.2.1 (by simp [TextureDesc.Plain1D])
  · exact absurd h.2.2 (by simp [TextureDesc.Plain2D])

end RenderCore

namespace HeightsSample

/-- C20, as stated, fails when the tile starts at the smallest `int`: with
    `HeightMapOrigin.x = -2^31`, `TileDimensionsInVertices = 2` and the input
    `(-2^31, 0)`, which lies in the stated range, `input.x - 1` wraps around and
    `T0` returns `x = 2^31 - 1`, outside `[ox, ox + N - 1]`. -/
theorem T0_leaves_tile_when_wrapping :
    (2 : Int) ≤ 2 ∧
    (-2147483648 : Int) ≤ -2147483648 ∧ (-2147483648 : Int) ≤ -2147483648 + 2 - 2 ∧
    (0 : Int) ≤ 0 ∧ (0 : Int) ≤ 0 + 2 - 2 ∧
    (T0
        { HeightMapOrigin := { x := -2147483648, y := 0, z := 0 }, TileDimensionsInVertices := 2 }
        { x := -2147483648, y := 0 }).x = 2147483647 ∧
    ¬ ((T0
        { HeightMapOrigin := { x := -2147483648, y := 0, z := 0 }, TileDimensionsInVertices := 2 }
        { x := -2147483648, y := 0 }).x
        ≤ -2147483648 + 2 - 1) := by
  decide

/-- C20, amended. Let `(ox, oy) = HeightMapOrigin.xy` and
    `N = TileDimensionsInVertices ≥ 2`, with `-2^31 < ox`, `-2^31 < oy`,
    `ox + N - 1 < 2^31 - 1` and `oy + N - 1 < 2^31 - 1` (so that `input - 1` and
    `input + 2` do not wrap around). For every input `(x, y)` with
    `ox ≤ x ≤ ox + N - 2` and `oy ≤ y ≤ oy + N - 2`, each of `T0` .. `T11` returns
    a coordinate with `x` in `[ox, ox + N - 1]` and `y` in `[oy, oy + N - 1]`. -/
theorem taps_stay_inside_tile (c : TileConstants) (input : int2)
    (hN : 2 ≤ c.TileDimensionsInVertices)
    (hox : -2147483648 < c.HeightMapOrigin.x)
    (hoy : -2147483648 < c.HeightMapOrigin.y)
    (hmx : c.HeightMapOrigin.x + c.TileDimensionsInVertices - 1 < 2147483647)
    (hmy : c.HeightMapOrigin.y + c.TileDimensionsInVertices - 1 < 2147483647)
    (hx0 : c.HeightMapOrigin.x ≤ input.x)
    (hx1 : input.x ≤ c.HeightMapOrigin.x + c.TileDimensionsInVertices - 2)
    (hy0 : c.HeightMapOrigin.y ≤ input.y)
    (hy1 : input.y ≤ c.HeightMapOrigin.y + c.TileDimensionsInVertices - 2) :
    ∀ T ∈ [T0, T1, T2, T3, T4, T5, T6, T7, T8, T9, T10, T11],
      c.HeightMapOrigin.x ≤ (T c input).x ∧
      (T c input).x ≤ c.HeightMapOrigin.x + c.TileDimensionsInVertices - 1 ∧
      c.HeightMapOrigin.y ≤ (T c input).y ∧
      (T c input).y ≤ c.HeightMapOrigin.y + c.TileDimensionsInVertices - 1 := by
  intro T hT
  simp only [List.mem_cons, List.mem_singleton, List.not_mem_nil, or_false] at hT
  rcases hT with rfl | rfl | rfl | rfl | rfl | rfl | rfl | rfl | rfl | rfl | rfl | rfl
  · simp only [T0, wrapInt32]
    omega
  · simp only [T1, wrapInt32]
    omega
  · simp only [T2, wrapInt32]
    omega
  · simp only [T3, wrapInt32]
    omega
  · simp only [T4, wrapInt32]
    omega
  · simp only [T5, wrapInt32]
    omega
  · simp only [T6, wrapInt32]
    omega
  · simp only [T7, wrapInt32]
    omega
  · simp only [T8, wrapInt32]
    omega
  · simp only [T9, wrapInt32]
    omega
  · simp only [T10, wrapInt32]
    omega
  · simp only [T11, wrapInt32]
    omega

/-- Example for C20: a tile of 33 vertices at origin `(64, 128)` and the input
    at its far corner, `(95, 159)`. -/
theorem taps_stay_inside_tile_witness :
    ((2 : Int) ≤ 33 ∧ (-2147483648 : Int) < 64 ∧ (-2147483648 : Int) < 128 ∧
      (64 : Int) + 33 - 1 < 2147483647 ∧ (128 : Int) + 33 - 1 < 2147483647 ∧
      (64 : Int) ≤ 95 ∧ (95 : Int) ≤ 64 + 33 - 2 ∧
      (128 : Int) ≤ 159 ∧ (159 : Int) ≤ 128 + 33 - 2) ∧
    ∀ T ∈ [T0, T1, T2, T3, T4, T5, T6, T7, T8, T9, T10, T11],
      (64 : Int) ≤ (T
        { HeightMapOrigin := { x := 64, y := 128, z := 0 }, TileDimensionsInVertices := 33 }
        { x := 95, y := 159 }).x ∧
      (T
        { HeightMapOrigin := { x := 64, y := 128, z := 0 }, TileDimensionsInVertices := 33 }
        { x := 95, y := 159 }).x ≤ 64 + 33 - 1 ∧
      (128 : Int) ≤ (T
        { HeightMapOrigin := { x := 64, y := 128, z := 0 }, TileDimensionsInVertices := 33 }
        { x := 95, y := 159 }).y ∧
      (T
        { HeightMapOrigin := { x := 64, y := 128, z := 0 }, TileDimensionsInVertices := 33 }
        { x := 95, y := 159 }).y ≤ 128 + 33 - 1 :=
  ⟨by decide,
    taps_stay_inside_tile
      { HeightMapOrigin := { x := 64, y := 128, z := 0 }, TileDimensionsInVertices := 33 }
      { x := 95, y := 159 }
      (by decide) (by decide) (by decide) (by decide) (by decide)
      (by decide) (by decide) (by decide) (by decide)⟩

end HeightsSample

namespace Sample.EnvironmentSceneParser

/-- C21. `GetShadowFrustumDesc(index)` raises the exception "Bad shadow frustum index"
    if and only if `index >= 1`. It does so before computing anything: for
    `index >= 1` the outcome is that exception, with the static array untouched,
    whatever the scene queries are. For every `index` below
    `GetShadowFrustumCount()`, which is 1, the exception is not raised and the
    computed frustum is returned. -/
theorem GetShadowFrustumDesc_bad_index {ShadowFrustumDesc LightDesc CameraDesc : Type}
    (scene : SceneQueries ShadowFrustumDesc LightDesc CameraDesc)
    (result : Fin 1 → ShadowFrustumDesc) (index : Nat) :
    ((GetShadowFrustumDesc scene result index).1
        = Except.error { label := "Bad shadow frustum index" } ↔ index ≥ 1) ∧
    (index ≥ 1 → ∀ other : SceneQueries ShadowFrustumDesc LightDesc CameraDesc,
      GetShadowFrustumDesc other result index
        = (Except.error { label := "Bad shadow frustum index" }, result)) ∧
    GetShadowFrustumCount = 1 ∧
    (index < GetShadowFrustumCount →
      (GetShadowFrustumDesc scene result index).1
          ≠ Except.error { label := "Bad shadow frustum index" } ∧
      (GetShadowFrustumDesc scene result index).1
          = Except.ok (scene.CalculateDefaultShadowFrustums (scene.GetLightDesc index)
              scene.GetCameraDesc)) := by
  have hbad : index ≥ 1 → ∀ other : SceneQueries ShadowFrustumDesc LightDesc CameraDesc,
      GetShadowFrustumDesc other result index
        = (Except.error { label := "Bad shadow frustum index" }, result) := by
    intro h other
    have hd : index ≥ RenderCore.dimof result := h
    simp only [GetShadowFrustumDesc, dif_pos hd]
  have hok : index < 1 →
      (GetShadowFrustumDesc scene result index).1
        = Except.ok (scene.CalculateDefaultShadowFrustums (scene.GetLightDesc index)
            scene.GetCameraDesc) := by
    intro h
    have hd : ¬ index ≥ RenderCore.dimof result := Nat.not_le_of_lt h
    simp only [GetShadowFrustumDesc, dif_neg hd, Function.update_same]
  refine ⟨⟨fun h => ?_, fun h => by rw [hbad h scene]⟩, hbad, rfl, fun h => ⟨?_, hok h⟩⟩
  · by_contra hlt
    rw [hok (Nat.lt_of_not_ge hlt)] at h
    exact absurd h (by simp)
  · rw [hok h]
    simp

/-- Example for C21: with index 3 the exception is raised and the static array
    keeps its content; with index 0 the frustum `10 + 7` is returned. -/
theorem GetShadowFrustumDesc_bad_index_witness :
    GetShadowFrustumDesc sampleScene (fun _ => 0) 3
      = (Except.error { label := "Bad shadow frustum index" }, fun _ => 0) ∧
    (GetShadowFrustumDesc sampleScene (fun _ => 0) 0).1 = Except.ok 17 :=
  ⟨(GetShadowFrustumDesc_bad_index sampleScene (fun _ => 0) 3).2.1 (by decide) sampleScene,
    ((GetShadowFrustumDesc_bad_index sampleScene (fun _ => 0) 0).2.2.2 (by decide)).2⟩

end Sample.EnvironmentSceneParser

namespace GUILayer.ClassAccessors_GetAndSet

/-- C22. `TrySetMember` with a `UInt32` value calls the accessor table's `TryGet`,
    not `TrySet`: if `TryGet` does not modify the object it reads, then for every
    name and `UInt32` value the wrapped object is left unchanged and the returned
    flag is the result of `TryGet`; with a `Single` value the call forwards to
    `TrySet` with that value. -/
theorem TrySetMember_UInt32_calls_TryGet {Obj : Type} (u : StringUtils)
    (accessors : ClassAccessors Obj) (obj : Obj) (name : String) (caseInsensitive : Bool)
    (v : Nat) (s : Single)
    (hget : ∀ (r : Nat) (o : Obj) (id : Nat), (accessors.TryGetUInt32 r o id).2.2 = o) :
    TrySetMember u accessors obj name caseInsensitive (ManagedObject.UInt32 v)
      = ((accessors.TryGetUInt32 v obj (u.Hash64 (u.marshalString name))).1, obj) ∧
    TrySetMember u accessors obj name caseInsensitive (ManagedObject.Single s)
      = accessors.TrySetSingle s obj (u.Hash64 (u.marshalString name)) := by
  refine ⟨?_, rfl⟩
  show ((accessors.TryGetUInt32 v obj (u.Hash64 (u.marshalString name))).1,
    (accessors.TryGetUInt32 v obj (u.Hash64 (u.marshalString name))).2.2) = _
  rw [hget]

/-- Example for C22 on the sample object `(n = 3, f = 1)`: setting "n" to the
    `UInt32` 5 reports success and leaves `n = 3`, while setting "f" to the
    `Single` 9 stores it. -/
theorem TrySetMember_UInt32_calls_TryGet_witness :
    (∀ (r : Nat) (o : SampleSettings) (id : Nat),
      (sampleAccessors.TryGetUInt32 r o id).2.2 = o) ∧
    TrySetMember sampleStringUtils sampleAccessors { n := 3, f := { bits := 1 } } "n" false
        (ManagedObject.UInt32 5)
      = (true, { n := 3, f := { bits := 1 } }) ∧
    TrySetMember sampleStringUtils sampleAccessors { n := 3, f := { bits := 1 } } "f" false
        (ManagedObject.Single { bits := 9 })
      = (true, { n := 3, f := { bits := 9 } }) := by
  have hget : ∀ (r : Nat) (o : SampleSettings) (id : Nat),
      (sampleAccessors.TryGetUInt32 r o id).2.2 = o := by
    intro r o id
    unfold sampleAccessors
    dsimp only
    split <;> rfl
  have h1 := TrySetMember_UInt32_calls_TryGet sampleStringUtils sampleAccessors
    { n := 3, f := { bits := 1 } } "n" false 5 { bits := 9 } hget
  have h2 := TrySetMember_UInt32_calls_TryGet sampleStringUtils sampleAccessors
    { n := 3, f := { bits := 1 } } "f" false 5 { bits := 9 } hget
  exact ⟨hget, h1.1.trans (by decide), h2.2.trans (by decide)⟩

end GUILayer.ClassAccessors_GetAndSet
